import Mathlib

/-!
Shallow embedding of the order-lifecycle / cart-consistency core of the
foody-api service (Express + Prisma, PostgreSQL store), together with proofs
of the specification claims about it.

The relational store is modelled as lists of rows (one list per table, in
insertion order, as Prisma `findMany` with no `orderBy` is modelled here by
table order), and each route handler body is translated into a pure function
from a store state to a result and a new store state.  Prisma `findFirst` /
`findUnique` become `List.find?`, `create` appends a row carrying the next
serial id, `update` rewrites the rows matched by the `where` clause, and
`deleteMany` filters rows out.  JavaScript integer arithmetic on prices,
quantities and star values is modelled with `Int`; the floating-point
restaurant rating column is modelled with `ℚ` (every value actually computed
by this code is a small rational, exactly representable).  `Date.now()` is
passed in explicitly as a `Nat` millisecond timestamp.
-/

namespace Foody

/-- Row of the `restaurants` table (fields the core touches: `swagger`-only
columns such as `place`, `lat`, `long`, `images` are carried nowhere in the
cart/order/review logic and are omitted). -/
structure Restaurant where
  id : Nat
  name : String
  star : ℚ
  logo : Option String
  deriving DecidableEq, Repr

/-- Row of the `resto_menus` table. -/
structure RestoMenu where
  id : Nat
  restaurantId : Nat
  foodName : String
  price : Int
  type : String
  image : Option String
  deriving DecidableEq, Repr

/-- Row of the `user_cart_items` table. -/
structure CartEntry where
  id : Nat
  cartId : String
  userId : Nat
  restaurantId : Nat
  menuId : Nat
  quantity : Int
  deriving DecidableEq, Repr

/-- One element of the JSONB `items` array persisted on a transaction row:
the frozen snapshot of one purchased line, exactly the object literal built
in the checkout handler. -/
structure OrderItem where
  restaurantId : Nat
  restaurantName : String
  menuId : Nat
  menuName : String
  price : Int
  quantity : Int
  itemTotal : Int
  deriving DecidableEq, Repr

/-- Row of the `transactions` table.  `price` is the column the handler
fills with the computed subtotal. -/
structure Transaction where
  id : Nat
  transactionId : String
  userId : Nat
  paymentMethod : String
  price : Int
  serviceFee : Int
  deliveryFee : Int
  totalPrice : Int
  status : String
  items : List OrderItem
  createdAt : Nat
  updatedAt : Nat
  deriving DecidableEq, Repr

/-- Row of the `resto_reviews` table. -/
structure RestoReview where
  id : Nat
  userId : Nat
  restaurantId : Nat
  star : Int
  comment : Option String
  deriving DecidableEq, Repr

/-- The persistent store: one list of rows per table, in insertion order,
plus the next value of each serial primary-key sequence. -/
structure DB where
  restaurants : List Restaurant
  menus : List RestoMenu
  cartItems : List CartEntry
  transactions : List Transaction
  reviews : List RestoReview
  nextCartItemId : Nat
  nextTransactionPk : Nat
  nextReviewId : Nat
  deriving DecidableEq, Repr

/-- Prisma `restaurant.findUnique({ where: { id } })`. -/
def findRestaurant (db : DB) (restaurantId : Nat) : Option Restaurant :=
  db.restaurants.find? (fun r => r.id == restaurantId)

/-- Prisma `restoMenu.findFirst({ where: { id: menuId, restaurantId } })`:
the menu must exist and belong to the restaurant. -/
def findMenuOfRestaurant (db : DB) (restaurantId menuId : Nat) : Option RestoMenu :=
  db.menus.find? (fun m => m.id == menuId && m.restaurantId == restaurantId)

/-- Relation join `userCartItem.include.menu` (foreign key `menuId`). -/
def findMenu (db : DB) (menuId : Nat) : Option RestoMenu :=
  db.menus.find? (fun m => m.id == menuId)

/-- Prisma `userCartItem.findMany({ where: { userId } })`: the calling
user's cart rows. -/
def userCart (db : DB) (userId : Nat) : List CartEntry :=
  db.cartItems.filter (fun e => e.userId == userId)

/-- Predicate for the cart row of one (user, restaurant, menu) triple, the
`where` clause of the duplicate check in the add-to-cart handler. -/
def tripleMatch (userId restaurantId menuId : Nat) (e : CartEntry) : Bool :=
  e.userId == userId && e.restaurantId == restaurantId && e.menuId == menuId

/-- Result of `POST /cart` (add item to cart). -/
inductive CartAddResult where
  | restaurantNotFound
  | menuNotFound
  | added (entry : CartEntry) (itemTotal : Int)
  deriving DecidableEq, Repr

/-- Body of the `POST /cart` handler in `src/routes/cart.js`.  `quantity`
is `none` when the request body omits it, in which case the destructuring
default `quantity = 1` applies.  On a duplicate (user, restaurant, menu)
triple the stored quantity is incremented; otherwise a fresh row is
created with the next serial id and `cartId = "cart_" + userId + "_" + Date.now()`. -/
def addItem (now userId restaurantId menuId : Nat) (quantity : Option Int) (db : DB) :
    CartAddResult × DB :=
  match findRestaurant db restaurantId with
  | none => (.restaurantNotFound, db)
  | some _ =>
    match findMenuOfRestaurant db restaurantId menuId with
    | none => (.menuNotFound, db)
    | some menu =>
      let q := quantity.getD 1
      match db.cartItems.find? (tripleMatch userId restaurantId menuId) with
      | some existing =>
        let newQty := existing.quantity + q
        let cartItems := db.cartItems.map
          (fun e => if e.id == existing.id then { e with quantity := newQty } else e)
        (.added { existing with quantity := newQty } (menu.price * newQty),
          { db with cartItems := cartItems })
      | none =>
        let cartId := "cart_" ++ toString userId ++ "_" ++ toString now
        let entry : CartEntry :=
          { id := db.nextCartItemId, cartId := cartId, userId := userId,
            restaurantId := restaurantId, menuId := menuId, quantity := q }
        (.added entry (menu.price * q),
          { db with cartItems := db.cartItems ++ [entry],
                    nextCartItemId := db.nextCartItemId + 1 })

/-- Iterated `POST /cart` for one fixed (user, restaurant, menu) triple:
each call supplies its own `Date.now()` value and optional quantity. -/
def addItems (userId restaurantId menuId : Nat) (calls : List (Nat × Option Int)) (db : DB) :
    DB :=
  calls.foldl (fun d c => (addItem c.1 userId restaurantId menuId c.2 d).2) db

/-- Fixed service fee of the checkout handler. -/
def serviceFee : Int := 1000

/-- Fixed delivery fee of the checkout handler. -/
def deliveryFee : Int := 10000

/-- Order identifier built by the checkout handler, the template literal
`TXN${Date.now()}${userId}` (decimal prints of both numbers). -/
def genTransactionId (now userId : Nat) : String :=
  "TXN" ++ toString now ++ toString userId

/-- One cart row joined with its `restaurant` and `menu` relations, as the
checkout handler's `findMany` with `include` returns it. -/
structure JoinedCartItem where
  entry : CartEntry
  restaurant : Restaurant
  menu : RestoMenu
  deriving DecidableEq, Repr

/-- Relation join for a list of cart rows.  In the live system the foreign
keys always resolve; a dangling key would make Prisma throw, which the
handler's catch turns into a store failure, hence the `Option`. -/
def joinCart (db : DB) : List CartEntry → Option (List JoinedCartItem)
  | [] => some []
  | e :: rest =>
    match findRestaurant db e.restaurantId, findMenu db e.menuId with
    | some r, some m => (joinCart db rest).map (fun js => ⟨e, r, m⟩ :: js)
    | _, _ => none

/-- Frozen order line built from one joined cart row, the object literal
pushed onto `orderItems` in the checkout handler. -/
def mkOrderItem (j : JoinedCartItem) : OrderItem :=
  { restaurantId := j.entry.restaurantId
    restaurantName := j.restaurant.name
    menuId := j.entry.menuId
    menuName := j.menu.foodName
    price := j.menu.price
    quantity := j.entry.quantity
    itemTotal := j.menu.price * j.entry.quantity }

/-- Result of `POST /order/checkout`. -/
inductive CheckoutResult where
  | emptyCart
  | storeFailure
  | placed (t : Transaction)
  deriving DecidableEq, Repr

/-- Body of the `POST /checkout` handler in the order routes, with explicit
fault injection for its two store writes: `createOk = false` makes the
`transaction.create` call throw (writing nothing), `clearOk = false` makes
the subsequent `userCartItem.deleteMany` throw (deleting nothing).  A throw
lands in the handler's catch block, which reports a generic failure; no
transactional boundary spans the two writes. -/
def checkoutWith (createOk clearOk : Bool) (now userId : Nat) (paymentMethod : String)
    (db : DB) : CheckoutResult × DB :=
  let cartItems := userCart db userId
  if cartItems.isEmpty then (.emptyCart, db)
  else
    match joinCart db cartItems with
    | none => (.storeFailure, db)
    | some joined =>
      let orderItems := joined.map mkOrderItem
      let subtotal := (orderItems.map (fun i => i.itemTotal)).sum
      let totalPrice := subtotal + serviceFee + deliveryFee
      if createOk then
        let t : Transaction :=
          { id := db.nextTransactionPk
            transactionId := genTransactionId now userId
            userId := userId
            paymentMethod := paymentMethod
            price := subtotal
            serviceFee := serviceFee
            deliveryFee := deliveryFee
            totalPrice := totalPrice
            status := "preparing"
            items := orderItems
            createdAt := now
            updatedAt := now }
        let db1 := { db with transactions := db.transactions ++ [t],
                             nextTransactionPk := db.nextTransactionPk + 1 }
        if clearOk then
          (.placed t, { db1 with cartItems := db1.cartItems.filter (fun e => !(e.userId == userId)) })
        else (.storeFailure, db1)
      else (.storeFailure, db)

/-- Fault-free checkout: both store writes succeed. -/
def checkout (now userId : Nat) (paymentMethod : String) (db : DB) : CheckoutResult × DB :=
  checkoutWith true true now userId paymentMethod db

/-- Status enumeration of the `PUT /:id/status` handler (`validStatuses`). -/
def validStatuses : List String :=
  ["preparing", "on_the_way", "delivered", "done", "cancelled"]

/-- Prisma `transaction.findFirst({ where: { id, userId } })`: the order,
only if it belongs to the calling user. -/
def findUserOrder (db : DB) (userId orderId : Nat) : Option Transaction :=
  db.transactions.find? (fun t => t.id == orderId && t.userId == userId)

/-- Result of `PUT /order/:id/status`. -/
inductive StatusUpdateResult where
  | invalidStatus
  | notFound
  | updated (t : Transaction)
  deriving DecidableEq, Repr

/-- Body of the `PUT /:id/status` handler in the order routes: reject a
status outside `validStatuses`, then look the order up under the calling
user, then rewrite the row (Prisma `update where id` also refreshes the
`@updatedAt` column, modelled by storing `now`). -/
def setStatus (now userId orderId : Nat) (status : String) (db : DB) :
    StatusUpdateResult × DB :=
  if !(validStatuses.contains status) then (.invalidStatus, db)
  else
    match findUserOrder db userId orderId with
    | none => (.notFound, db)
    | some t0 =>
      let txs := db.transactions.map
        (fun t => if t.id == orderId then { t with status := status, updatedAt := now } else t)
      (.updated { t0 with status := status, updatedAt := now }, { db with transactions := txs })

/-- Helper `updateRestaurantRating` of `src/routes/review.js`: load all star
values of the restaurant's reviews and, when at least one exists, store
their mean rounded via `Math.round(average * 10) / 10`; with no reviews the
stored rating is not written.  JavaScript `Math.round` on the non-negative
values arising here is `⌊x + 1/2⌋`. -/
def updateRestaurantRating (db : DB) (restaurantId : Nat) : DB :=
  let stars : List Int := (db.reviews.filter (fun rv => rv.restaurantId == restaurantId)).map
    (fun rv => rv.star)
  if 0 < stars.length then
    let averageRating : ℚ := (stars.sum : ℚ) / (stars.length : ℚ)
    let newStar : ℚ := ((⌊averageRating * 10 + 1 / 2⌋ : ℤ) : ℚ) / 10
    let rs := db.restaurants.map
      (fun r => if r.id == restaurantId then { r with star := newStar } else r)
    { db with restaurants := rs }
  else db

/-- Star values of one restaurant's reviews, in table order. -/
def restaurantStars (db : DB) (restaurantId : Nat) : List Int :=
  (db.reviews.filter (fun rv => rv.restaurantId == restaurantId)).map (fun rv => rv.star)

/-- Rounding exactly as the specification words it: the arithmetic mean is
rounded to one decimal place, half-up at the tenths digit. -/
def roundTenthsHalfUp (x : ℚ) : ℚ :=
  ((⌊x * 10 + 1 / 2⌋ : ℤ) : ℚ) / 10

/-- Prisma `transaction.findFirst({ where: { transactionId, userId } })`:
lookup of an order by its external string identifier under the calling
user, the first check of the create-review handler. -/
def findUserTransaction (db : DB) (userId : Nat) (transactionId : String) :
    Option Transaction :=
  db.transactions.find? (fun t => t.transactionId == transactionId && t.userId == userId)

/-- Prisma `restoReview.findFirst({ where: { userId, restaurantId } })`:
the duplicate-review check. -/
def findUserReview (db : DB) (userId restaurantId : Nat) : Option RestoReview :=
  db.reviews.find? (fun rv => rv.userId == userId && rv.restaurantId == restaurantId)

/-- Result of `POST /review`. -/
inductive ReviewCreateResult where
  | transactionNotFound
  | restaurantNotFound
  | forbidden
  | conflict
  | created (rv : RestoReview)
  deriving DecidableEq, Repr

/-- Body of the `POST /review` handler in `src/routes/review.js`: the order
must exist under the calling user (404 otherwise), the restaurant must
exist (404), the order's items must contain a line for the restaurant
(400, the only-restaurants-you-ordered-from rule), and the (user,
restaurant) pair must not already have a review (409); then the review row
is created and the restaurant rating recomputed.  No check of the order's
`status` is made anywhere. -/
def createReview (userId : Nat) (transactionId : String) (restaurantId : Nat)
    (star : Int) (comment : Option String) (db : DB) : ReviewCreateResult × DB :=
  match findUserTransaction db userId transactionId with
  | none => (.transactionNotFound, db)
  | some transaction =>
    match findRestaurant db restaurantId with
    | none => (.restaurantNotFound, db)
    | some _ =>
      if !(transaction.items.any (fun item => item.restaurantId == restaurantId)) then
        (.forbidden, db)
      else
        match findUserReview db userId restaurantId with
        | some _ => (.conflict, db)
        | none =>
          let rv : RestoReview :=
            { id := db.nextReviewId, userId := userId, restaurantId := restaurantId,
              star := star, comment := comment }
          let db1 := { db with reviews := db.reviews ++ [rv],
                               nextReviewId := db.nextReviewId + 1 }
          (.created rv, updateRestaurantRating db1 restaurantId)

/-- JavaScript truthiness of the optional numeric `star` field of a review
update: `undefined` (absent) and `0` are falsy, every other number truthy. -/
def jsTruthyInt : Option Int → Bool
  | none => false
  | some n => !(n == 0)

/-- Result of `PUT /review/:id`. -/
inductive ReviewUpdateResult where
  | badStar
  | notFound
  | updated (rv : RestoReview)
  deriving DecidableEq, Repr

/-- Body of the `PUT /review/:id` handler: the guard
`if (star && (star < 1 || star > 5))` rejects only truthy out-of-range
star values; the review must belong to the calling user; the update spreads
`...(star && { star })` and `...(comment !== undefined && { comment })`
(the outer `Option` on `comment` marks presence in the request body, the
inner one the nullable column value); the rating is recomputed only when
`star` is truthy. -/
def updateReview (userId reviewId : Nat) (star : Option Int)
    (comment : Option (Option String)) (db : DB) : ReviewUpdateResult × DB :=
  if jsTruthyInt star && (star.getD 0 < 1 || 5 < star.getD 0) then (.badStar, db)
  else
    match db.reviews.find? (fun rv => rv.id == reviewId && rv.userId == userId) with
    | none => (.notFound, db)
    | some rv0 =>
      let newStar := if jsTruthyInt star then star.getD rv0.star else rv0.star
      let newComment := match comment with
        | some c => c
        | none => rv0.comment
      let rvs := db.reviews.map
        (fun rv => if rv.id == reviewId then { rv with star := newStar, comment := newComment } else rv)
      let db1 := { db with reviews := rvs }
      if jsTruthyInt star then
        (.updated { rv0 with star := newStar, comment := newComment },
          updateRestaurantRating db1 rv0.restaurantId)
      else
        (.updated { rv0 with star := newStar, comment := newComment }, db1)

/-- Modelled from the spec: "changing the underlying menu price afterward".
The repository has no endpoint that edits a menu's price (menus are seeded),
so the later price change against which order snapshots must be immune is
modelled as a direct write to the `resto_menus.price` column. -/
def setMenuPrice (db : DB) (menuId : Nat) (newPrice : Int) : DB :=
  let ms := db.menus.map (fun m => if m.id == menuId then { m with price := newPrice } else m)
  { db with menus := ms }

/-- Prisma lookup of a transaction row by primary key. -/
def findTransactionByPk (db : DB) (pk : Nat) : Option Transaction :=
  db.transactions.find? (fun t => t.id == pk)

/-- Mean of a list of star values rounded to one decimal place, half-up at
the tenths digit: the value the specification says a non-empty review set
must produce. -/
def ratingOfStars (stars : List Int) : ℚ :=
  roundTenthsHalfUp ((stars.sum : ℚ) / (stars.length : ℚ))

/-- Sample order owned by user 1, still `preparing`, holding one line item
for restaurant 1. -/
def txC7 : Transaction :=
  { id := 1, transactionId := "TXN1", userId := 1, paymentMethod := "cash",
    price := 50000, serviceFee := 1000, deliveryFee := 10000, totalPrice := 61000,
    status := "preparing",
    items := [{ restaurantId := 1, restaurantName := "R1", menuId := 5,
                menuName := "A", price := 50000, quantity := 1, itemTotal := 50000 }],
    createdAt := 0, updatedAt := 0 }

/-- C7 counterexample store: user 1 owns order TXN1 with a line item for
restaurant 1, and the order's status is still `preparing` (not a completed
order); no review exists yet. -/
def dbC7 : DB :=
  { restaurants := [{ id := 1, name := "R1", star := 0, logo := none }]
    menus := [{ id := 5, restaurantId := 1, foodName := "A", price := 50000,
                type := "food", image := none }]
    cartItems := []
    transactions := [txC7]
    reviews := []
    nextCartItemId := 1
    nextTransactionPk := 2
    nextReviewId := 1 }

/-- Sample seed store: two restaurants, one menu each, all other tables
empty. -/
def dbSeed : DB :=
  { restaurants := [{ id := 1, name := "R1", star := 0, logo := none },
                    { id := 2, name := "R2", star := 0, logo := none }]
    menus := [{ id := 5, restaurantId := 1, foodName := "A", price := 50000,
                type := "food", image := none },
              { id := 9, restaurantId := 2, foodName := "B", price := 15000,
                type := "drink", image := none }]
    cartItems := []
    transactions := []
    reviews := []
    nextCartItemId := 1
    nextTransactionPk := 1
    nextReviewId := 1 }

/-- Seed store plus user 7's cart: quantity 2 of menu 5 (restaurant 1) and
quantity 1 of menu 9 (restaurant 2). -/
def dbCart : DB :=
  { dbSeed with
      cartItems := [{ id := 1, cartId := "cart_7_100", userId := 7,
                      restaurantId := 1, menuId := 5, quantity := 2 },
                    { id := 2, cartId := "cart_7_101", userId := 7,
                      restaurantId := 2, menuId := 9, quantity := 1 }]
      nextCartItemId := 3 }

/-- Order produced by checking `dbCart` out at millisecond 200. -/
def txW : Transaction :=
  { id := 1, transactionId := "TXN2007", userId := 7, paymentMethod := "cash",
    price := 115000, serviceFee := 1000, deliveryFee := 10000, totalPrice := 126000,
    status := "preparing",
    items := [{ restaurantId := 1, restaurantName := "R1", menuId := 5, menuName := "A",
                price := 50000, quantity := 2, itemTotal := 100000 },
              { restaurantId := 2, restaurantName := "R2", menuId := 9, menuName := "B",
                price := 15000, quantity := 1, itemTotal := 15000 }],
    createdAt := 200, updatedAt := 200 }

/-- Store left behind by that checkout: cart cleared, order persisted. -/
def dbAfterW : DB :=
  { dbSeed with transactions := [txW], nextCartItemId := 3, nextTransactionPk := 2 }

/-- Seed store plus one persisted order of user 7. -/
def dbOrder : DB :=
  { dbSeed with transactions := [txW], nextTransactionPk := 2 }

/-- Sample sequence of add-to-cart calls: quantities 2, default (1), 3. -/
def callsW : List (Nat × Option Int) := [(100, some 2), (101, none), (102, some 3)]

/-- Seed store plus three reviews of restaurant 1 with stars 5, 4, 3. -/
def dbRev3 : DB :=
  { dbSeed with
      reviews := [{ id := 1, userId := 1, restaurantId := 1, star := 5, comment := none },
                  { id := 2, userId := 2, restaurantId := 1, star := 4, comment := none },
                  { id := 3, userId := 3, restaurantId := 1, star := 3, comment := none }]
      nextReviewId := 4 }

/-- Sample review: user 1 gave restaurant 1 five stars. -/
def rvW : RestoReview :=
  { id := 1, userId := 1, restaurantId := 1, star := 5, comment := none }

/-- Seed store plus that single five-star review. -/
def dbRev1 : DB :=
  { dbSeed with reviews := [rvW], nextReviewId := 2 }

/-- Invariant carried through a sequence of add-to-cart calls for one fixed
(user, restaurant, menu) triple: serial ids are distinct and below the next
serial value, and the triple owns exactly one cart row, of quantity `s`. -/
def CartInv (userId restaurantId menuId : Nat) (db : DB) (s : Int) : Prop :=
  (db.cartItems.map (fun e => e.id)).Nodup
    ∧ (∀ e ∈ db.cartItems, e.id < db.nextCartItemId)
    ∧ ∃ e, db.cartItems.filter (tripleMatch userId restaurantId menuId) = [e]
        ∧ e.quantity = s

/-- Decimal decode of a digit string: left inverse of the decimal print of
a natural number, used to show transaction-id components are injective in
the printed timestamp. -/
def decDigits (cs : List Char) : Nat :=
  cs.foldl (fun a c => 10 * a + (c.toNat - 48)) 0

/-! ## General lemmas about the row-list operations -/

theorem find?_map_of_pres {α : Type} (p : α → Bool) (f : α → α)
    (hp : ∀ x, p (f x) = p x) :
    ∀ l : List α, (l.map f).find? p = (l.find? p).map f := by
  intro l
  induction l with
  | nil => rfl
  | cons a rest ih =>
    by_cases hpa : p a = true
    · rw [List.map_cons, List.find?_cons_of_pos _ (by rw [hp]; exact hpa),
        List.find?_cons_of_pos _ hpa]
      rfl
    · rw [List.map_cons, List.find?_cons_of_neg _ (by rw [hp]; exact hpa),
        List.find?_cons_of_neg _ hpa, ih]

theorem filter_singleton_find? {α : Type} (p : α → Bool) :
    ∀ {l : List α} {e : α}, l.filter p = [e] → l.find? p = some e := by
  intro l
  induction l with
  | nil => intro e h; simp at h
  | cons a rest ih =>
    intro e h
    by_cases hpa : p a = true
    · rw [List.filter_cons_of_pos hpa] at h
      obtain ⟨rfl, hrest⟩ : a = e ∧ rest.filter p = [] := by
        injection h with h1 h2; exact ⟨h1, h2⟩
      exact List.find?_cons_of_pos _ hpa
    · rw [List.filter_cons_of_neg hpa] at h
      rw [List.find?_cons_of_neg _ hpa]
      exact ih h

/-! ## Checkout lemmas -/

theorem joinCart_entries (db : DB) :
    ∀ {l : List CartEntry} {js : List JoinedCartItem},
      joinCart db l = some js → js.map (fun j => j.entry) = l := by
  intro l
  induction l with
  | nil =>
    intro js h
    simp only [joinCart, Option.some.injEq] at h
    subst h
    rfl
  | cons e rest ih =>
    intro js h
    simp only [joinCart] at h
    cases hr : findRestaurant db e.restaurantId with
    | none => rw [hr] at h; simp at h
    | some r =>
      cases hm : findMenu db e.menuId with
      | none => rw [hr, hm] at h; simp at h
      | some m =>
        rw [hr, hm] at h
        obtain ⟨js0, hjs0, rfl⟩ := Option.map_eq_some'.mp h
        simp only [List.map_cons, ih hjs0]

theorem joinCart_resolves (db : DB) :
    ∀ {l : List CartEntry} {js : List JoinedCartItem},
      joinCart db l = some js →
      ∀ j ∈ js, findRestaurant db j.entry.restaurantId = some j.restaurant
        ∧ findMenu db j.entry.menuId = some j.menu := by
  intro l
  induction l with
  | nil =>
    intro js h
    simp only [joinCart, Option.some.injEq] at h
    subst h
    intro j hj
    simp at hj
  | cons e rest ih =>
    intro js h
    simp only [joinCart] at h
    cases hr : findRestaurant db e.restaurantId with
    | none => rw [hr] at h; simp at h
    | some r =>
      cases hm : findMenu db e.menuId with
      | none => rw [hr, hm] at h; simp at h
      | some m =>
        rw [hr, hm] at h
        obtain ⟨js0, hjs0, rfl⟩ := Option.map_eq_some'.mp h
        intro j hj
        rcases List.mem_cons.mp hj with rfl | hj0
        · exact ⟨hr, hm⟩
        · exact ih hjs0 j hj0

/-- C3: for every user whose cart has zero entries, checkout fails with the
EmptyCart client error ("Cart is empty", 400) and the store is unchanged,
so no Order is created. -/
theorem checkout_empty_cart (now userId : Nat) (pm : String) (db : DB)
    (h : userCart db userId = []) :
    checkout now userId pm db = (.emptyCart, db) := by
  simp [checkout, checkoutWith, h]

/-- C1: for every successful checkout, the persisted Order reconciles:
`totalPrice = subtotal + serviceFee + deliveryFee`, the stored subtotal is
the sum of the line `itemTotal`s, each line's price is the menu's current
price at checkout time with `itemTotal` that price times the cart quantity,
the lines correspond one-to-one to the user's cart entries, and the user's
cart has zero entries immediately after. -/
theorem checkout_success_reconciles (now userId : Nat) (pm : String) (db : DB)
    (t : Transaction) (db2 : DB)
    (h : checkout now userId pm db = (.placed t, db2)) :
    t.totalPrice = t.price + t.serviceFee + t.deliveryFee
      ∧ t.price = (t.items.map (fun i => i.itemTotal)).sum
      ∧ (∀ i ∈ t.items, ∃ m, findMenu db i.menuId = some m ∧ i.price = m.price
          ∧ i.itemTotal = m.price * i.quantity)
      ∧ t.items.map (fun i => (i.menuId, i.quantity))
          = (userCart db userId).map (fun e => (e.menuId, e.quantity))
      ∧ userCart db2 userId = [] := by
  simp only [checkout, checkoutWith] at h
  cases hE : (userCart db userId).isEmpty with
  | true => simp [hE] at h
  | false =>
    simp only [hE, Bool.false_eq_true, if_false] at h
    cases hJ : joinCart db (userCart db userId) with
    | none => rw [hJ] at h; simp at h
    | some joined =>
      rw [hJ] at h
      simp only [if_true, Prod.mk.injEq, CheckoutResult.placed.injEq] at h
      obtain ⟨hT, hD⟩ := h
      subst hT
      subst hD
      refine ⟨rfl, rfl, ?_, ?_, ?_⟩
      · intro i hi
        obtain ⟨j, hj, rfl⟩ := List.mem_map.mp hi
        exact ⟨j.menu, (joinCart_resolves db hJ j hj).2, rfl, rfl⟩
      · rw [List.map_map]
        have hent : joined.map (fun j => j.entry) = userCart db userId := joinCart_entries db hJ
        rw [show ((fun i : OrderItem => (i.menuId, i.quantity)) ∘ mkOrderItem)
              = ((fun e : CartEntry => (e.menuId, e.quantity)) ∘ (fun j : JoinedCartItem => j.entry))
            from rfl, ← List.map_map, hent]
      · simp only [userCart, List.filter_filter]
        rw [List.filter_eq_nil_iff]
        intro a _
        simp

/-- C2: order creation (step 6) and cart clear (step 7) behave as a single
atomic unit under per-call store faults: whenever the `transaction.create`
call fails, the whole store — in particular the user's cart — is left
untouched, and in every execution in which the user's cart got cleared the
created order has been persisted (appended to the transactions table). -/
theorem checkout_write_atomicity (createOk clearOk : Bool) (now userId : Nat)
    (pm : String) (db : DB) :
    (createOk = false → (checkoutWith createOk clearOk now userId pm db).2 = db)
      ∧ (userCart (checkoutWith createOk clearOk now userId pm db).2 userId = [] →
          userCart db userId ≠ [] →
          ∃ t, (checkoutWith createOk clearOk now userId pm db).2.transactions
            = db.transactions ++ [t]) := by
  simp only [checkoutWith]
  cases hE : (userCart db userId).isEmpty with
  | true =>
    refine ⟨fun _ => by simp [hE], fun _ hne => ?_⟩
    exact absurd (List.isEmpty_iff.mp hE) hne
  | false =>
    simp only [hE, Bool.false_eq_true, if_false]
    cases hJ : joinCart db (userCart db userId) with
    | none => exact ⟨fun _ => rfl, fun hcl hne => absurd (by simpa [userCart] using hcl) hne⟩
    | some joined =>
      cases createOk with
      | false =>
        exact ⟨fun _ => rfl, fun hcl hne => absurd (by simpa [userCart] using hcl) hne⟩
      | true =>
        refine ⟨fun hf => by simp at hf, ?_⟩
        cases clearOk with
        | false =>
          intro hcl hne
          exact absurd (by simpa [userCart] using hcl) hne
        | true =>
          intro _ _
          exact ⟨_, rfl⟩

/-- C6: a status outside the fixed enumeration is rejected with
InvalidStatus and the store (hence the order's stored status) is unchanged;
with a valid status, an order that does not exist under the calling user
yields NotFound with the store unchanged; otherwise the row is rewritten
with the new status and a fresh update timestamp. -/
theorem setStatus_spec (now userId orderId : Nat) (status : String) (db : DB) :
    (status ∉ validStatuses → setStatus now userId orderId status db = (.invalidStatus, db))
      ∧ (status ∈ validStatuses → findUserOrder db userId orderId = none →
          setStatus now userId orderId status db = (.notFound, db))
      ∧ (∀ t0, status ∈ validStatuses → findUserOrder db userId orderId = some t0 →
          (setStatus now userId orderId status db).1
              = .updated { t0 with status := status, updatedAt := now }
            ∧ findUserOrder (setStatus now userId orderId status db).2 userId orderId
              = some { t0 with status := status, updatedAt := now }) := by
  refine ⟨?_, ?_, ?_⟩
  · intro hmem
    have hc : (!(validStatuses.contains status)) = true := by
      simpa using hmem
    unfold setStatus
    rw [if_pos hc]
  · intro hmem hnone
    have hc : ¬((!(validStatuses.contains status)) = true) := by
      simpa using hmem
    unfold setStatus
    rw [if_neg hc, hnone]
  · intro t0 hmem hsome
    have hc : ¬((!(validStatuses.contains status)) = true) := by
      simpa using hmem
    have hid : (t0.id == orderId) = true := by
      have := List.find?_some (p := fun t : Transaction => t.id == orderId && t.userId == userId)
        (by simpa [findUserOrder] using hsome)
      exact (Bool.and_eq_true _ _ ▸ this).1
    have hpres : ∀ tr : Transaction,
        ((fun t : Transaction => t.id == orderId && t.userId == userId)
            ((fun t : Transaction =>
              if t.id == orderId then { t with status := status, updatedAt := now } else t) tr))
          = (fun t : Transaction => t.id == orderId && t.userId == userId) tr := by
      intro tr
      by_cases h : (tr.id == orderId) = true
      · simp [h]
      · simp [h]
    constructor
    · unfold setStatus
      rw [if_neg hc, hsome]
    · unfold setStatus
      rw [if_neg hc, hsome]
      unfold findUserOrder at hsome ⊢
      rw [find?_map_of_pres _ _ hpres, hsome]
      have hid2 : t0.id = orderId := by simpa using hid
      simp [hid2]

/-- C5: `updateRestaurantRating` with a non-empty review set stores the
arithmetic mean of the star values rounded to one decimal place, half-up at
the tenths digit; with an empty review set the store (hence the stored
rating) is left unchanged. -/
theorem recomputeRating_spec :
    (∀ (db : DB) (rid : Nat) (r : Restaurant),
        restaurantStars db rid ≠ [] →
        findRestaurant db rid = some r →
        findRestaurant (updateRestaurantRating db rid) rid
          = some { r with star := ratingOfStars (restaurantStars db rid) })
      ∧ (∀ (db : DB) (rid : Nat), restaurantStars db rid = [] →
          updateRestaurantRating db rid = db) := by
  constructor
  · intro db rid r hne hfind
    unfold findRestaurant at hfind
    have hid := List.find?_some hfind
    have hlen : 0 < (restaurantStars db rid).length := List.length_pos.mpr hne
    have hpres : ∀ x : Restaurant,
        ((fun rr : Restaurant => rr.id == rid)
            ((fun rr : Restaurant =>
              if rr.id == rid then { rr with star := ratingOfStars (restaurantStars db rid) }
              else rr) x))
          = (fun rr : Restaurant => rr.id == rid) x := by
      intro x
      by_cases h : (x.id == rid) = true
      · simp [h]
      · simp [h]
    simp only [restaurantStars] at hlen
    simp only [updateRestaurantRating]
    rw [if_pos hlen]
    show List.find? (fun rr : Restaurant => rr.id == rid)
        (db.restaurants.map (fun rr : Restaurant =>
          if rr.id == rid then { rr with star := ratingOfStars (restaurantStars db rid) }
          else rr))
      = some { r with star := ratingOfStars (restaurantStars db rid) }
    rw [find?_map_of_pres _ _ hpres]
    rw [hfind]
    have hid2 : r.id = rid := by simpa using hid
    simp [hid2]
  · intro db rid h
    simp only [restaurantStars] at h
    have hlen0 : (db.reviews.filter (fun rv => rv.restaurantId == rid)).length = 0 := by
      simpa using congrArg List.length h
    simp [updateRestaurantRating, hlen0]

/-- Frame fact: recomputing a restaurant's rating rewrites only the
restaurants table. -/
theorem updateRestaurantRating_frame (db : DB) (rid : Nat) :
    (updateRestaurantRating db rid).reviews = db.reviews
      ∧ (updateRestaurantRating db rid).transactions = db.transactions
      ∧ (updateRestaurantRating db rid).cartItems = db.cartItems
      ∧ (updateRestaurantRating db rid).menus = db.menus := by
  unfold updateRestaurantRating
  by_cases h : 0 < (db.reviews.filter (fun rv => rv.restaurantId == rid)).length
  · simp [h]
  · simp [h]

/-- C7 (amended): review creation succeeds exactly when the referenced
order exists under the requesting user (NotFound otherwise — regardless of
the order's status, which is never inspected), the restaurant exists
(NotFound), the order contains a line item for the target restaurant
(Forbidden otherwise), and the (user, restaurant) pair has no existing
review (Conflict otherwise); every failure leaves the store unchanged, and
on success the new review row is persisted. -/
theorem createReview_spec (userId : Nat) (txid : String) (rid : Nat) (star : Int)
    (c : Option String) (db : DB) :
    (findUserTransaction db userId txid = none →
        createReview userId txid rid star c db = (.transactionNotFound, db))
      ∧ (∀ tr, findUserTransaction db userId txid = some tr →
          findRestaurant db rid = none →
          createReview userId txid rid star c db = (.restaurantNotFound, db))
      ∧ (∀ tr r, findUserTransaction db userId txid = some tr →
          findRestaurant db rid = some r →
          tr.items.any (fun item => item.restaurantId == rid) = false →
          createReview userId txid rid star c db = (.forbidden, db))
      ∧ (∀ tr r rv0, findUserTransaction db userId txid = some tr →
          findRestaurant db rid = some r →
          tr.items.any (fun item => item.restaurantId == rid) = true →
          findUserReview db userId rid = some rv0 →
          createReview userId txid rid star c db = (.conflict, db))
      ∧ (∀ tr r, findUserTransaction db userId txid = some tr →
          findRestaurant db rid = some r →
          tr.items.any (fun item => item.restaurantId == rid) = true →
          findUserReview db userId rid = none →
          (createReview userId txid rid star c db).1
              = .created { id := db.nextReviewId, userId := userId, restaurantId := rid,
                           star := star, comment := c }
            ∧ (createReview userId txid rid star c db).2.reviews
              = db.reviews ++ [{ id := db.nextReviewId, userId := userId,
                                 restaurantId := rid, star := star, comment := c }]) := by
  refine ⟨?_, ?_, ?_, ?_, ?_⟩
  · intro hnone
    simp [createReview, hnone]
  · intro tr htr hr
    simp [createReview, htr, hr]
  · intro tr r htr hr hno
    simp [createReview, htr, hr, hno]
  · intro tr r rv0 htr hr hyes hrv
    simp [createReview, htr, hr, hyes, hrv]
  · intro tr r htr hr hyes hrv
    constructor
    · simp [createReview, htr, hr, hyes, hrv]
    · simp only [createReview, htr, hr, hyes, hrv, Bool.not_true, Bool.false_eq_true, if_false]
      exact (updateRestaurantRating_frame _ rid).1

/-- C7 refutation: review creation succeeds on an order whose status is
`preparing`, i.e. an order that is not completed, contradicting "succeeds
only when the referenced order ... is a completed order". -/
theorem createReview_succeeds_on_uncompleted_order :
    (createReview 1 "TXN1" 1 5 none dbC7).1
        = .created { id := 1, userId := 1, restaurantId := 1, star := 5, comment := none }
      ∧ (∀ t ∈ dbC7.transactions, t.status = "preparing")
      ∧ "preparing" ≠ "done" ∧ "preparing" ≠ "delivered" := by
  refine ⟨by decide, by decide, by decide, by decide⟩

/-- C8: order snapshots are frozen.  After a successful checkout the
persisted order can be read back unchanged, and changing any menu's price
afterwards neither touches the transactions table nor the read-back order
row, so every stored per-line price, itemTotal, subtotal and totalPrice is
unchanged. -/
theorem checkout_snapshot_frozen (now userId : Nat) (pm : String) (db db2 : DB)
    (t : Transaction) (mid : Nat) (newPrice : Int)
    (hfresh : ∀ tr ∈ db.transactions, tr.id < db.nextTransactionPk)
    (h : checkout now userId pm db = (.placed t, db2)) :
    (setMenuPrice db2 mid newPrice).transactions = db2.transactions
      ∧ findTransactionByPk (setMenuPrice db2 mid newPrice) t.id = some t
      ∧ findTransactionByPk db2 t.id = some t := by
  have htx : db2.transactions = db.transactions ++ [t] ∧ t.id = db.nextTransactionPk := by
    simp only [checkout, checkoutWith] at h
    cases hE : (userCart db userId).isEmpty with
    | true => simp [hE] at h
    | false =>
      simp only [hE, Bool.false_eq_true, if_false] at h
      cases hJ : joinCart db (userCart db userId) with
      | none => rw [hJ] at h; simp at h
      | some joined =>
        rw [hJ] at h
        simp only [if_true, Prod.mk.injEq, CheckoutResult.placed.injEq] at h
        obtain ⟨hT, hD⟩ := h
        subst hT
        subst hD
        exact ⟨rfl, rfl⟩
  have hlook : findTransactionByPk db2 t.id = some t := by
    rw [findTransactionByPk, htx.1, List.find?_append]
    have hnone : db.transactions.find? (fun tr => tr.id == t.id) = none := by
      rw [List.find?_eq_none]
      intro tr htr
      have := hfresh tr htr
      simp only [beq_iff_eq]
      omega
    rw [hnone]
    simp
  exact ⟨rfl, hlook, hlook⟩

/-- C10: a review update supplying `star = 0` slips past the range guard
(which only rejects truthy values outside 1–5): given the review exists
under the calling user, the call succeeds, the stored star value is left
unchanged (only the comment field can change), and no rating recomputation
touches the restaurants table. -/
theorem updateReview_star_zero (userId reviewId : Nat) (c : Option (Option String))
    (db : DB) (rv0 : RestoReview)
    (hfind : db.reviews.find? (fun rv => rv.id == reviewId && rv.userId == userId)
      = some rv0) :
    (updateReview userId reviewId (some 0) c db).1
        = .updated { rv0 with comment := c.getD rv0.comment }
      ∧ (updateReview userId reviewId (some 0) c db).2.reviews.find?
            (fun rv => rv.id == reviewId && rv.userId == userId)
          = some { rv0 with comment := c.getD rv0.comment }
      ∧ (updateReview userId reviewId (some 0) c db).2.restaurants = db.restaurants := by
  have hid : (rv0.id == reviewId) = true := by
    have := List.find?_some hfind
    exact (Bool.and_eq_true _ _ ▸ this).1
  have hcomm : (match c with
      | some x => x
      | none => rv0.comment) = c.getD rv0.comment := by
    cases c <;> rfl
  have hpres : ∀ x : RestoReview,
      ((fun rv : RestoReview => rv.id == reviewId && rv.userId == userId)
          ((fun rv : RestoReview =>
            if rv.id == reviewId then
              { rv with star := rv0.star, comment := c.getD rv0.comment }
            else rv) x))
        = (fun rv : RestoReview => rv.id == reviewId && rv.userId == userId) x := by
    intro x
    by_cases h : (x.id == reviewId) = true
    · simp [h]
    · simp [h]
  refine ⟨?_, ?_, ?_⟩
  · simp [updateReview, jsTruthyInt, hfind, hcomm]
  · simp only [updateReview, jsTruthyInt, beq_self_eq_true, Bool.not_true,
      Bool.false_and, Bool.false_eq_true, if_false, hfind, hcomm]
    rw [find?_map_of_pres _ _ hpres, hfind]
    have hid2 : rv0.id = reviewId := by simpa using hid
    simp [hid2]
  · simp [updateReview, jsTruthyInt, hfind]

/-! ## Cart-merge lemmas (C4) -/

theorem filter_map_setQtyById (p : CartEntry → Bool) (newQty : Int)
    (hp : ∀ x : CartEntry, p { x with quantity := newQty } = p x) :
    ∀ (l : List CartEntry) (e : CartEntry),
      (l.map (fun x => x.id)).Nodup → l.filter p = [e] →
      (l.map (fun x => if x.id == e.id then { x with quantity := newQty } else x)).filter p
        = [{ e with quantity := newQty }] := by
  intro l
  induction l with
  | nil => intro e _ h; simp at h
  | cons a rest ih =>
    intro e hnd hf
    rw [List.map_cons, List.nodup_cons] at hnd
    obtain ⟨hnotin, hndr⟩ := hnd
    by_cases hpa : p a = true
    · rw [List.filter_cons_of_pos hpa] at hf
      obtain ⟨rfl, hrest⟩ : a = e ∧ rest.filter p = [] := by
        injection hf with h1 h2; exact ⟨h1, h2⟩
      have hmap : rest.map (fun x => if x.id == a.id then { x with quantity := newQty } else x)
          = rest.map id := by
        apply List.map_congr_left
        intro x hx
        have hne : x.id ≠ a.id := by
          intro hEq
          exact hnotin (hEq ▸ List.mem_map_of_mem (fun y : CartEntry => y.id) hx)
        simp [hne]
      have hfe : (if a.id == a.id then { a with quantity := newQty } else a)
          = { a with quantity := newQty } := by simp
      rw [List.map_cons, hfe, hmap, List.map_id,
        List.filter_cons_of_pos (by rw [hp]; exact hpa), hrest]
    · rw [List.filter_cons_of_neg hpa] at hf
      have hein : e ∈ rest := by
        have : e ∈ rest.filter p := by rw [hf]; exact List.mem_singleton_self e
        exact List.mem_of_mem_filter this
      have haid : (if a.id == e.id then { a with quantity := newQty } else a) = a := by
        have hne : a.id ≠ e.id := by
          intro hEq
          exact hnotin (hEq ▸ List.mem_map_of_mem (fun y : CartEntry => y.id) hein)
        simp [hne]
      rw [List.map_cons, haid, List.filter_cons_of_neg hpa]
      exact ih e hndr hf

theorem addItem_step (now u rid mid : Nat) (q : Option Int) (db : DB) (s : Int)
    (hr : (findRestaurant db rid).isSome)
    (hm : (findMenuOfRestaurant db rid mid).isSome)
    (hinv : CartInv u rid mid db s) :
    CartInv u rid mid (addItem now u rid mid q db).2 (s + q.getD 1)
      ∧ (addItem now u rid mid q db).2.restaurants = db.restaurants
      ∧ (addItem now u rid mid q db).2.menus = db.menus
      ∧ (addItem now u rid mid q db).1
          ≠ CartAddResult.restaurantNotFound
      ∧ (addItem now u rid mid q db).1 ≠ CartAddResult.menuNotFound := by
  obtain ⟨hnd, hfresh, e, hfe, hq⟩ := hinv
  obtain ⟨r, hrr⟩ := Option.isSome_iff_exists.mp hr
  obtain ⟨m, hmm⟩ := Option.isSome_iff_exists.mp hm
  have hfind : db.cartItems.find? (tripleMatch u rid mid) = some e :=
    filter_singleton_find? _ hfe
  unfold addItem
  rw [hrr, hmm, hfind]
  refine ⟨⟨?_, ?_, ?_⟩, rfl, rfl, by simp, by simp⟩
  · show ((db.cartItems.map fun x =>
        if x.id == e.id then { x with quantity := e.quantity + q.getD 1 } else x).map
          (fun x => x.id)).Nodup
    rw [List.map_map]
    have hcomp : ((fun x : CartEntry => x.id) ∘ fun x : CartEntry =>
        if x.id == e.id then { x with quantity := e.quantity + q.getD 1 } else x)
        = fun x : CartEntry => x.id := by
      funext x
      by_cases h : (x.id == e.id) = true
      · simp [Function.comp, h]
      · simp [Function.comp, h]
    rw [hcomp]
    exact hnd
  · intro x hx
    obtain ⟨y, hy, rfl⟩ := List.mem_map.mp hx
    show (if y.id == e.id then { y with quantity := e.quantity + q.getD 1 } else y).id
        < db.nextCartItemId
    by_cases h : (y.id == e.id) = true
    · simpa [h] using hfresh y hy
    · simpa [h] using hfresh y hy
  · refine ⟨{ e with quantity := e.quantity + q.getD 1 },
      filter_map_setQtyById _ _ (fun x => rfl) db.cartItems e hnd hfe, ?_⟩
    show e.quantity + q.getD 1 = s + q.getD 1
    rw [hq]

theorem addItem_first (now u rid mid : Nat) (q : Option Int) (db : DB)
    (hr : (findRestaurant db rid).isSome)
    (hm : (findMenuOfRestaurant db rid mid).isSome)
    (hnd : (db.cartItems.map (fun e => e.id)).Nodup)
    (hfresh : ∀ e ∈ db.cartItems, e.id < db.nextCartItemId)
    (habs : db.cartItems.filter (tripleMatch u rid mid) = []) :
    CartInv u rid mid (addItem now u rid mid q db).2 (q.getD 1)
      ∧ (addItem now u rid mid q db).2.restaurants = db.restaurants
      ∧ (addItem now u rid mid q db).2.menus = db.menus := by
  obtain ⟨r, hrr⟩ := Option.isSome_iff_exists.mp hr
  obtain ⟨m, hmm⟩ := Option.isSome_iff_exists.mp hm
  have hfind : db.cartItems.find? (tripleMatch u rid mid) = none := by
    rw [List.find?_eq_none]
    exact List.filter_eq_nil_iff.mp habs
  unfold addItem
  rw [hrr, hmm, hfind]
  refine ⟨⟨?_, ?_, ?_⟩, rfl, rfl⟩
  · rw [List.map_append, List.nodup_append]
    refine ⟨hnd, by simp, ?_⟩
    intro x hx hx1
    obtain ⟨y, hy, rfl⟩ := List.mem_map.mp hx
    have hlt := hfresh y hy
    have : y.id = db.nextCartItemId := by simpa using hx1
    omega
  · intro x hx
    rcases List.mem_append.mp hx with hold | hnew
    · have := hfresh x hold
      show x.id < db.nextCartItemId + 1
      omega
    · have hxeq : x = { id := db.nextCartItemId,
                        cartId := "cart_" ++ toString u ++ "_" ++ toString now,
                        userId := u, restaurantId := rid, menuId := mid,
                        quantity := q.getD 1 } := by simpa using hnew
      rw [hxeq]
      show db.nextCartItemId < db.nextCartItemId + 1
      omega
  · refine ⟨{ id := db.nextCartItemId,
              cartId := "cart_" ++ toString u ++ "_" ++ toString now,
              userId := u, restaurantId := rid, menuId := mid,
              quantity := q.getD 1 }, ?_, rfl⟩
    rw [List.filter_append, habs]
    simp [tripleMatch]

theorem addItems_inv (u rid mid : Nat) :
    ∀ (calls : List (Nat × Option Int)) (db : DB) (s : Int),
      (findRestaurant db rid).isSome →
      (findMenuOfRestaurant db rid mid).isSome →
      CartInv u rid mid db s →
      CartInv u rid mid (addItems u rid mid calls db)
        (s + (calls.map (fun c => c.2.getD 1)).sum) := by
  intro calls
  induction calls with
  | nil => intro db s _ _ h; simpa [addItems] using h
  | cons c rest ih =>
    intro db s hr hm hinv
    have hstep := addItem_step c.1 u rid mid c.2 db s hr hm hinv
    have hr2 : (findRestaurant (addItem c.1 u rid mid c.2 db).2 rid).isSome := by
      unfold findRestaurant at hr ⊢
      rw [hstep.2.1]
      exact hr
    have hm2 : (findMenuOfRestaurant (addItem c.1 u rid mid c.2 db).2 rid mid).isSome := by
      unfold findMenuOfRestaurant at hm ⊢
      rw [hstep.2.2.1]
      exact hm
    have hrest := ih (addItem c.1 u rid mid c.2 db).2 (s + c.2.getD 1) hr2 hm2 hstep.1
    have hsum : s + ((c :: rest).map (fun x => x.2.getD 1)).sum
        = s + c.2.getD 1 + (rest.map (fun x => x.2.getD 1)).sum := by
      rw [List.map_cons, List.sum_cons, add_assoc]
    rw [show addItems u rid mid (c :: rest) db
        = addItems u rid mid rest (addItem c.1 u rid mid c.2 db).2 from rfl, hsum]
    exact hrest

/-- C4: starting from any store whose cart rows have distinct fresh serial
ids and no row yet for the (user, restaurant, menu) triple, any non-empty
sequence of successful add-to-cart calls for that triple (each with its own
timestamp and optional quantity, a missing quantity defaulting to 1) leaves
exactly one cart row for the triple, and its quantity is the sum of all the
quantities passed. -/
theorem addItem_merges (u rid mid : Nat) (calls : List (Nat × Option Int)) (db : DB)
    (hr : (findRestaurant db rid).isSome)
    (hm : (findMenuOfRestaurant db rid mid).isSome)
    (hnd : (db.cartItems.map (fun e => e.id)).Nodup)
    (hfresh : ∀ e ∈ db.cartItems, e.id < db.nextCartItemId)
    (habs : db.cartItems.filter (tripleMatch u rid mid) = [])
    (hne : calls ≠ []) :
    ∃ e, (addItems u rid mid calls db).cartItems.filter (tripleMatch u rid mid) = [e]
      ∧ e.quantity = (calls.map (fun c => c.2.getD 1)).sum := by
  cases calls with
  | nil => exact absurd rfl hne
  | cons c rest =>
    have hfirst := addItem_first c.1 u rid mid c.2 db hr hm hnd hfresh habs
    have hr2 : (findRestaurant (addItem c.1 u rid mid c.2 db).2 rid).isSome := by
      unfold findRestaurant at hr ⊢
      rw [hfirst.2.1]
      exact hr
    have hm2 : (findMenuOfRestaurant (addItem c.1 u rid mid c.2 db).2 rid mid).isSome := by
      unfold findMenuOfRestaurant at hm ⊢
      rw [hfirst.2.2]
      exact hm
    have hinv := addItems_inv u rid mid rest (addItem c.1 u rid mid c.2 db).2
      (c.2.getD 1) hr2 hm2 hfirst.1
    obtain ⟨_, _, e, hfe, hq⟩ := hinv
    refine ⟨e, ?_, ?_⟩
    · rw [show addItems u rid mid (c :: rest) db
          = addItems u rid mid rest (addItem c.1 u rid mid c.2 db).2 from rfl]
      exact hfe
    · rw [hq, List.map_cons, List.sum_cons]

/-! ## Transaction-id lemmas (C9) -/

theorem toDigitsCore_acc (b : Nat) :
    ∀ (fuel n : Nat) (ds : List Char),
      Nat.toDigitsCore b fuel n ds = Nat.toDigitsCore b fuel n [] ++ ds := by
  intro fuel
  induction fuel with
  | zero => intro n ds; simp [Nat.toDigitsCore]
  | succ f ih =>
    intro n ds
    simp only [Nat.toDigitsCore]
    by_cases h : n / b = 0
    · simp [h]
    · rw [if_neg h, if_neg h, ih (n / b) (Nat.digitChar (n % b) :: ds),
        ih (n / b) [Nat.digitChar (n % b)], List.append_assoc, List.singleton_append]

theorem decDigits_append_digit (cs : List Char) (c : Char) :
    decDigits (cs ++ [c]) = 10 * decDigits cs + (c.toNat - 48) := by
  simp [decDigits, List.foldl_append]

theorem digitChar_toNat (m : Nat) (h : m < 10) : (Nat.digitChar m).toNat = m + 48 := by
  interval_cases m <;> rfl

theorem decDigits_toDigitsCore :
    ∀ (fuel n : Nat), n < fuel → decDigits (Nat.toDigitsCore 10 fuel n []) = n := by
  intro fuel
  induction fuel with
  | zero => intro n h; omega
  | succ f ih =>
    intro n h
    simp only [Nat.toDigitsCore]
    by_cases h0 : n / 10 = 0
    · rw [if_pos h0]
      have hn : n < 10 := by omega
      have hdec : decDigits [Nat.digitChar (n % 10)] = (Nat.digitChar (n % 10)).toNat - 48 := by
        simp [decDigits]
      rw [hdec, digitChar_toNat (n % 10) (Nat.mod_lt n (by norm_num))]
      omega
    · rw [if_neg h0, toDigitsCore_acc 10 f (n / 10) [Nat.digitChar (n % 10)],
        decDigits_append_digit, ih (n / 10) (by omega),
        digitChar_toNat (n % 10) (Nat.mod_lt n (by norm_num))]
      omega

theorem decDigits_toDigits (n : Nat) : decDigits (Nat.toDigits 10 n) = n := by
  unfold Nat.toDigits
  exact decDigits_toDigitsCore (n + 1) n (by omega)

theorem nat_repr_injective {a b : Nat} (h : Nat.repr a = Nat.repr b) : a = b := by
  have hd : Nat.toDigits 10 a = Nat.toDigits 10 b := by
    have hdata := congrArg String.data h
    simpa [Nat.repr, List.asString] using hdata
  calc a = decDigits (Nat.toDigits 10 a) := (decDigits_toDigits a).symm
    _ = decDigits (Nat.toDigits 10 b) := by rw [hd]
    _ = b := decDigits_toDigits b

/-- C9 refutation: two distinct checkout invocations — user 1 checking out
at millisecond 11 and user 11 checking out at millisecond 1 — generate the
same transaction id, so the generated id is not globally unique across
distinct invocations. -/
theorem genTransactionId_collision :
    genTransactionId 11 1 = genTransactionId 1 11
      ∧ ((11, 1) : Nat × Nat) ≠ (1, 11) := by
  refine ⟨by decide, by decide⟩

/-- C9 (amended): for one fixed user, two checkout invocations at distinct
millisecond timestamps generate distinct transaction ids; uniqueness across
distinct users, or for two invocations in the same millisecond, does not
hold (the decimal prints of time and user id concatenate ambiguously). -/
theorem genTransactionId_injective_per_user (u t1 t2 : Nat) (h : t1 ≠ t2) :
    genTransactionId t1 u ≠ genTransactionId t2 u := by
  intro hEq
  have hd := congrArg String.data hEq
  simp only [genTransactionId, String.data_append] at hd
  have h2 := List.append_cancel_left (List.append_cancel_right hd)
  exact h (nat_repr_injective (String.ext h2))

/-! ## Witnesses: each hypothesised claim theorem applied at a concrete
store -/

/-- Witness for C1: checking out user 7's two-restaurant cart. -/
theorem checkout_success_reconciles_witness :
    checkout 200 7 "cash" dbCart = (.placed txW, dbAfterW)
      ∧ (txW.totalPrice = txW.price + txW.serviceFee + txW.deliveryFee
        ∧ txW.price = (txW.items.map (fun i => i.itemTotal)).sum
        ∧ (∀ i ∈ txW.items, ∃ m, findMenu dbCart i.menuId = some m ∧ i.price = m.price
            ∧ i.itemTotal = m.price * i.quantity)
        ∧ txW.items.map (fun i => (i.menuId, i.quantity))
            = (userCart dbCart 7).map (fun e => (e.menuId, e.quantity))
        ∧ userCart dbAfterW 7 = []) :=
  ⟨by decide, checkout_success_reconciles 200 7 "cash" dbCart txW dbAfterW (by decide)⟩

/-- Witness for C2: a failed create leaves the store untouched, and the
fault-free run clears the cart only together with a persisted order. -/
theorem checkout_write_atomicity_witness :
    (checkoutWith false true 200 7 "cash" dbCart).2 = dbCart
      ∧ userCart (checkoutWith true true 200 7 "cash" dbCart).2 7 = []
      ∧ userCart dbCart 7 ≠ []
      ∧ ∃ t, (checkoutWith true true 200 7 "cash" dbCart).2.transactions
          = dbCart.transactions ++ [t] :=
  ⟨(checkout_write_atomicity false true 200 7 "cash" dbCart).1 rfl,
    by decide, by decide,
    (checkout_write_atomicity true true 200 7 "cash" dbCart).2 (by decide) (by decide)⟩

/-- Witness for C3: checkout on the seed store, whose carts are empty. -/
theorem checkout_empty_cart_witness :
    userCart dbSeed 7 = [] ∧ checkout 200 7 "cash" dbSeed = (.emptyCart, dbSeed) :=
  ⟨by decide, checkout_empty_cart 200 7 "cash" dbSeed (by decide)⟩

/-- Witness for C4: three add-to-cart calls with quantities 2, default, 3
merge into one row of quantity 6. -/
theorem addItem_merges_witness :
    (findRestaurant dbSeed 1).isSome = true
      ∧ (findMenuOfRestaurant dbSeed 1 5).isSome = true
      ∧ (dbSeed.cartItems.map (fun e => e.id)).Nodup
      ∧ (∀ e ∈ dbSeed.cartItems, e.id < dbSeed.nextCartItemId)
      ∧ dbSeed.cartItems.filter (tripleMatch 7 1 5) = []
      ∧ callsW ≠ []
      ∧ ∃ e, (addItems 7 1 5 callsW dbSeed).cartItems.filter (tripleMatch 7 1 5) = [e]
          ∧ e.quantity = (callsW.map (fun c => c.2.getD 1)).sum :=
  ⟨by decide, by decide, by decide, by decide, by decide, by decide,
    addItem_merges 7 1 5 callsW dbSeed (by decide) (by decide) (by decide) (by decide)
      (by decide) (by decide)⟩

/-- Witness for C5: stars [5, 4, 3] round to 4, a single 5 to 5, and an
empty review set leaves the store untouched. -/
theorem recomputeRating_spec_witness :
    findRestaurant (updateRestaurantRating dbRev3 1) 1 = some ⟨1, "R1", 4, none⟩
      ∧ findRestaurant (updateRestaurantRating dbRev1 1) 1 = some ⟨1, "R1", 5, none⟩
      ∧ restaurantStars dbSeed 1 = []
      ∧ updateRestaurantRating dbSeed 1 = dbSeed := by
  refine ⟨?_, ?_, by decide, recomputeRating_spec.2 dbSeed 1 (by decide)⟩
  · have h := recomputeRating_spec.1 dbRev3 1 ⟨1, "R1", 0, none⟩ (by decide) (by decide)
    rw [h]
    have hstars : restaurantStars dbRev3 1 = [5, 4, 3] := by decide
    rw [hstars]
    have hrat : ratingOfStars [5, 4, 3] = 4 := by
      norm_num [ratingOfStars, roundTenthsHalfUp]
    rw [hrat]
  · have h := recomputeRating_spec.1 dbRev1 1 ⟨1, "R1", 0, none⟩ (by decide) (by decide)
    rw [h]
    have hstars : restaurantStars dbRev1 1 = [5] := by decide
    rw [hstars]
    have hrat : ratingOfStars [5] = 5 := by
      norm_num [ratingOfStars, roundTenthsHalfUp]
    rw [hrat]

/-- Witness for C6: a bogus status is rejected with the store unchanged, a
valid status on a foreign order yields NotFound, and a valid status on the
owner's order rewrites status and timestamp. -/
theorem setStatus_spec_witness :
    ("bogus" ∉ validStatuses ∧ setStatus 300 7 1 "bogus" dbOrder = (.invalidStatus, dbOrder))
      ∧ ("on_the_way" ∈ validStatuses ∧ findUserOrder dbOrder 9 1 = none
        ∧ setStatus 300 9 1 "on_the_way" dbOrder = (.notFound, dbOrder))
      ∧ ("on_the_way" ∈ validStatuses ∧ findUserOrder dbOrder 7 1 = some txW
        ∧ (setStatus 300 7 1 "on_the_way" dbOrder).1
            = .updated { txW with status := "on_the_way", updatedAt := 300 }
        ∧ findUserOrder (setStatus 300 7 1 "on_the_way" dbOrder).2 7 1
            = some { txW with status := "on_the_way", updatedAt := 300 }) :=
  ⟨⟨by decide, (setStatus_spec 300 7 1 "bogus" dbOrder).1 (by decide)⟩,
    ⟨by decide, by decide, (setStatus_spec 300 9 1 "on_the_way" dbOrder).2.1
      (by decide) (by decide)⟩,
    ⟨by decide, by decide, (setStatus_spec 300 7 1 "on_the_way" dbOrder).2.2 txW
      (by decide) (by decide)⟩⟩

/-- Witness for C7: a missing order yields NotFound on the seed store, and
on the counterexample store the review is created and persisted. -/
theorem createReview_spec_witness :
    (findUserTransaction dbSeed 1 "TXN1" = none
        ∧ createReview 1 "TXN1" 1 5 none dbSeed = (.transactionNotFound, dbSeed))
      ∧ (findUserTransaction dbC7 1 "TXN1" = some txC7
        ∧ findRestaurant dbC7 1 = some ⟨1, "R1", 0, none⟩
        ∧ txC7.items.any (fun item => item.restaurantId == 1) = true
        ∧ findUserReview dbC7 1 1 = none
        ∧ (createReview 1 "TXN1" 1 5 none dbC7).1
            = .created { id := 1, userId := 1, restaurantId := 1, star := 5, comment := none }
        ∧ (createReview 1 "TXN1" 1 5 none dbC7).2.reviews
            = dbC7.reviews ++ [{ id := 1, userId := 1, restaurantId := 1, star := 5,
                                 comment := none }]) :=
  ⟨⟨by decide, (createReview_spec 1 "TXN1" 1 5 none dbSeed).1 (by decide)⟩,
    by decide, by decide, by decide, by decide,
    (createReview_spec 1 "TXN1" 1 5 none dbC7).2.2.2.2 txC7 ⟨1, "R1", 0, none⟩
      (by decide) (by decide) (by decide) (by decide)⟩

/-- Witness for C8: after checking out user 7's cart, tripling menu 5's
price leaves the persisted order unchanged. -/
theorem checkout_snapshot_frozen_witness :
    (∀ tr ∈ dbCart.transactions, tr.id < dbCart.nextTransactionPk)
      ∧ checkout 200 7 "cash" dbCart = (.placed txW, dbAfterW)
      ∧ ((setMenuPrice dbAfterW 5 150000).transactions = dbAfterW.transactions
        ∧ findTransactionByPk (setMenuPrice dbAfterW 5 150000) txW.id = some txW
        ∧ findTransactionByPk dbAfterW txW.id = some txW) :=
  ⟨by decide, by decide,
    checkout_snapshot_frozen 200 7 "cash" dbCart dbAfterW txW 5 150000
      (by decide) (by decide)⟩

/-- Witness for C9 (amended): user 3 checking out at milliseconds 11 and 7
gets distinct transaction ids. -/
theorem genTransactionId_injective_per_user_witness :
    (11 : Nat) ≠ 7 ∧ genTransactionId 11 3 ≠ genTransactionId 7 3 :=
  ⟨by decide, genTransactionId_injective_per_user 3 11 7 (by decide)⟩

/-- Witness for C10: updating user 1's five-star review with star 0 and a
new comment succeeds, keeps the star, and leaves the restaurants table
alone. -/
theorem updateReview_star_zero_witness :
    dbRev1.reviews.find? (fun rv => rv.id == 1 && rv.userId == 1) = some rvW
      ∧ ((updateReview 1 1 (some 0) (some (some "better")) dbRev1).1
          = .updated { rvW with comment := (some (some "better")).getD rvW.comment }
        ∧ (updateReview 1 1 (some 0) (some (some "better")) dbRev1).2.reviews.find?
            (fun rv => rv.id == 1 && rv.userId == 1)
          = some { rvW with comment := (some (some "better")).getD rvW.comment }
        ∧ (updateReview 1 1 (some 0) (some (some "better")) dbRev1).2.restaurants
          = dbRev1.restaurants) :=
  ⟨by decide, updateReview_star_zero 1 1 (some (some "better")) dbRev1 rvW (by decide)⟩

end Foody
